import Mathlib

/-
Verification of the SATS-JSON wire-value decoder, the algebraic-type
formatters, the schema-to-column parsers and the schema discovery cache of
the spacetimedb-admin-portal repository.

The embedding follows the TypeScript source:
  - the SQL API route (parseSchemaToColumns, parseRowToObject,
    parseSatsJsonValue, its private formatAlgebraicType, and the row-limit
    logic of POST) lives in namespace SqlRoute;
  - the SpacetimeHttpClient (getTables, getTableSchema and its private
    formatAlgebraicType) lives in namespace HttpClient;
  - the SchemaDiscovery service (getAllTables, isCacheValid, clearCache,
    getCacheStatus) is modelled as explicit state passing over an
    `Option SchemaCache`, with the wall clock passed in as an `Int`
    millisecond instant and the network collaborators passed in as explicit
    `Except`-valued arguments.
-/

namespace Portal

/-- Primitive kinds of the wire protocol closed primitive set, as named by
the spec and by the JSON keys the source probes (`algType.U8` ...). -/
inductive PrimKind
  | U8 | U16 | U32 | U64 | U128 | U256
  | I8 | I16 | I32 | I64 | I128 | I256
  | F32 | F64 | Bool | String
deriving DecidableEq, Repr

/-- The optional-name field carried by schema elements. On the wire it is
an engaged/disengaged option object: `{some: "name"}`, `{none: []}`, or the
field can be missing altogether (the source guards with `element.name &&`
and `col.name?.some`). -/
inductive NameField
  | engaged (s : String)
  | disengaged
  | absent
deriving DecidableEq, Repr

/-- Algebraic type descriptors: a one-key JSON object holding a primitive
marker, a `Product` with elements, a `Sum` with variants, or a `Ref` index
into the typespace. Elements and variants pair an optional name with a
nested descriptor (`{name, algebraic_type}` on the wire). -/
inductive AlgebraicType
  | prim (k : PrimKind)
  | product (elements : List (NameField × AlgebraicType))
  | sum (variants : List (NameField × AlgebraicType))
  | ref (i : Nat)
deriving Repr

/-- JSON wire values as received by the SQL route: null, `undefined`,
string, number, boolean, array, object. Numbers are modelled as integers;
none of the decoding logic inspects their magnitude. -/
inductive WireValue
  | null
  | undef
  | str (s : String)
  | num (n : Int)
  | bool (b : Bool)
  | arr (elems : List WireValue)
  | obj (entries : List (String × WireValue))
deriving Repr

/-- The JavaScript test `typeof v === 'string' || typeof v === 'number' ||
typeof v === 'boolean'` used by parseSatsJsonValue (null and undefined are
not primitives under this test). -/
def isPrimitiveWire : WireValue → Bool
  | .str _ => true
  | .num _ => true
  | .bool _ => true
  | _ => false

mutual

/-- parseSatsJsonValue from the SQL API route: null/undefined become null,
primitives pass through verbatim, a one-element array whose sole element is
a primitive is unwrapped to that primitive, any other array is decoded
elementwise, and an object is decoded valuewise preserving keys. -/
def parseSatsJsonValue : WireValue → WireValue
  | .null => .null
  | .undef => .null
  | .str s => .str s
  | .num n => .num n
  | .bool b => .bool b
  | .arr [e] => if isPrimitiveWire e then e else .arr [parseSatsJsonValue e]
  | .arr elems => .arr (parseSatsJsonList elems)
  | .obj entries => .obj (parseSatsJsonEntries entries)

/-- Elementwise decoding of an array, the `value.map(parseSatsJsonValue)`
branch of parseSatsJsonValue. -/
def parseSatsJsonList : List WireValue → List WireValue
  | [] => []
  | v :: rest => parseSatsJsonValue v :: parseSatsJsonList rest

/-- Valuewise decoding of an object, the `Object.entries` branch of
parseSatsJsonValue. -/
def parseSatsJsonEntries : List (String × WireValue) → List (String × WireValue)
  | [] => []
  | (k, v) :: rest => (k, parseSatsJsonValue v) :: parseSatsJsonEntries rest

end

/-- Column definitions produced by the SQL route's parseSchemaToColumns:
a resolved name and a formatted type string. -/
structure Column where
  name : String
  type : String
deriving DecidableEq, Repr

/-- JavaScript object property assignment `o[k] = v`: an existing key is
updated in place (its position is kept), a new key is appended. The decoded
row object is modelled as its ordered property list. -/
def objAssign (o : List (String × WireValue)) (k : String) (v : WireValue) :
    List (String × WireValue) :=
  if o.any (fun p => p.1 == k) then
    o.map (fun p => if p.1 == k then (k, v) else p)
  else o ++ [(k, v)]

namespace SqlRoute

/-- The body of the `schema.elements.map((element, index) => ...)` callback
in parseSchemaToColumns: an engaged non-empty name yields that string (the
source tests JavaScript truthiness of `element.name.some`, so an engaged
empty string is treated like a missing name), anything else yields
`col_<index>`; the type is the route's own formatAlgebraicType. -/
def formatAlgebraicType : AlgebraicType → String
  | .prim .U8 => "u8"
  | .prim .U16 => "u16"
  | .prim .U32 => "u32"
  | .prim .U64 => "u64"
  | .prim .U128 => "u128"
  | .prim .I8 => "i8"
  | .prim .I16 => "i16"
  | .prim .I32 => "i32"
  | .prim .I64 => "i64"
  | .prim .I128 => "i128"
  | .prim .F32 => "f32"
  | .prim .F64 => "f64"
  | .prim .Bool => "bool"
  | .prim .String => "string"
  -- the route's copy has no U256/I256 branch: such a descriptor fails every
  -- primitive check and the Product/Sum checks and lands on the final
  -- `return 'complex'` fallback
  | .prim .U256 => "complex"
  | .prim .I256 => "complex"
  | .product _ => "struct"
  | .sum _ => "enum"
  -- no Ref branch either: a Ref lands on the `return 'complex'` fallback
  | .ref _ => "complex"

end SqlRoute

/-- A schema element of the query result's ProductType schema:
`{name, algebraic_type}` on the wire. -/
structure SchemaElement where
  name : NameField
  algebraic_type : AlgebraicType
deriving Repr

namespace SqlRoute

/-- One column of parseSchemaToColumns: name from the engaged option (with
JavaScript truthiness, so an engaged empty string falls back to
`col_<index>`), type from the route's formatAlgebraicType. -/
def parseSchemaToColumns.column (index : Nat) (element : SchemaElement) : Column :=
  { name :=
      match element.name with
      | NameField.engaged s => if s = "" then "col_" ++ toString index else s
      | _ => "col_" ++ toString index,
    type := formatAlgebraicType element.algebraic_type }

/-- The `schema.elements.map((element, index) => ...)` loop of
parseSchemaToColumns, carrying the positional index. -/
def parseSchemaToColumns.go : Nat → List SchemaElement → List Column
  | _, [] => []
  | index, element :: rest =>
      parseSchemaToColumns.column index element :: parseSchemaToColumns.go (index + 1) rest

/-- parseSchemaToColumns from the SQL API route. A missing schema or a
schema without an elements field (`!schema || !schema.elements`) is the
`none` case and yields no columns. -/
def parseSchemaToColumns : Option (List SchemaElement) → List Column
  | none => []
  | some elements => parseSchemaToColumns.go 0 elements

/-- The `row.forEach((value, index) => ...)` loop of parseRowToObject:
values whose index has a column are assigned onto the object under the
column's name after parseSatsJsonValue; values beyond the column list are
skipped (`if (column)`). -/
def parseRowToObject.go (columns : List Column) :
    Nat → List WireValue → List (String × WireValue) → List (String × WireValue)
  | _, [], o => o
  | index, v :: rest, o =>
      match columns.get? index with
      | some column =>
          parseRowToObject.go columns (index + 1) rest
            (objAssign o column.name (parseSatsJsonValue v))
      | none => parseRowToObject.go columns (index + 1) rest o

/-- parseRowToObject from the SQL API route: a non-array row yields the
empty object, an array row is zipped positionally against the column list. -/
def parseRowToObject (row : WireValue) (columns : List Column) :
    List (String × WireValue) :=
  match row with
  | .arr values => parseRowToObject.go columns 0 values []
  | _ => []

/-- The `maxRows = 10000` default applied when the request body omits
maxRows. -/
def effectiveMaxRows (requested : Option Int) : Int :=
  requested.getD 10000

/-- The SQL route's response payload for a select query. -/
structure SqlQueryResponse where
  columns : List Column
  rows : List (List (String × WireValue))
  totalRows : Nat
  fetchedRows : Nat
  truncated : Bool
deriving Repr

/-- The tail of the route's POST handler for a select query: columns from
parseSchemaToColumns, all rows decoded with parseRowToObject, then the row
limit: `truncated = maxRows > 0 && totalRows > maxRows` and
`rows = maxRows > 0 ? allRows.slice(0, maxRows) : allRows`. -/
def postResponse (schema : Option (List SchemaElement)) (rawRows : List WireValue)
    (maxRows : Int) : SqlQueryResponse :=
  let columns := parseSchemaToColumns schema
  let allRows := rawRows.map (fun row => parseRowToObject row columns)
  let totalRows := allRows.length
  let truncated := decide (maxRows > 0) && decide ((totalRows : Int) > maxRows)
  let rows := if maxRows > 0 then allRows.take maxRows.toNat else allRows
  { columns := columns, rows := rows, totalRows := totalRows,
    fetchedRows := rows.length, truncated := truncated }

end SqlRoute

namespace HttpClient

/-- The SpacetimeHttpClient's private formatAlgebraicType. Unlike the SQL
route's copy it knows U256, recognizes the three single-field sentinel
products as built-in types, and renders a Ref as the literal string
`ref(<index>)` without consulting the typespace. -/
def formatAlgebraicType : AlgebraicType → String
  | .prim .U8 => "u8"
  | .prim .U16 => "u16"
  | .prim .U32 => "u32"
  | .prim .U64 => "u64"
  | .prim .U128 => "u128"
  | .prim .I8 => "i8"
  | .prim .I16 => "i16"
  | .prim .I32 => "i32"
  | .prim .I64 => "i64"
  | .prim .I128 => "i128"
  | .prim .F32 => "f32"
  | .prim .F64 => "f64"
  | .prim .Bool => "bool"
  | .prim .String => "string"
  | .prim .U256 => "u256"
  -- no I256 branch in the source: an I256 descriptor fails every check and
  -- lands on the final `return 'complex'` fallback
  | .prim .I256 => "complex"
  | .product elements =>
      match elements with
      | [elem] =>
          if elem.1 = NameField.engaged "__timestamp_micros_since_unix_epoch__" then "Timestamp"
          else if elem.1 = NameField.engaged "__identity__" then "Identity"
          else if elem.1 = NameField.engaged "__time_duration_micros__" then "Duration"
          else "struct"
      | _ => "struct"
  | .sum _ => "enum"
  | .ref i => "ref(" ++ toString i ++ ")"

/-- One table entry of the schema document: `{name, product_type_ref}`
(primary key, indexes, constraints and sequences are not consumed by the
functions under verification). -/
structure RawTable where
  name : String
  product_type_ref : Nat
deriving DecidableEq, Repr

/-- The schema document returned by getDatabaseSchema: the table list and
the typespace's ordered type list (`typespace.types`). -/
structure SchemaDef where
  tables : List RawTable
  typespace : List AlgebraicType
deriving Repr

/-- A column as returned by getTableSchema: `{name, type, nullable}`. -/
structure TableSchemaColumn where
  name : String
  type : String
  nullable : Bool
deriving DecidableEq, Repr

/-- The `productType.Product.elements.map((col) => ...)` callback of
getTableSchema: `col.name?.some || 'unknown'` (JavaScript truthiness, so a
disengaged, absent or empty-string name yields `unknown`), the client's
formatAlgebraicType, and nullable hardcoded to true. -/
def tableSchemaColumnOf (col : NameField × AlgebraicType) : TableSchemaColumn :=
  { name :=
      match col.1 with
      | NameField.engaged s => if s = "" then "unknown" else s
      | _ => "unknown",
    type := formatAlgebraicType col.2,
    nullable := true }

/-- getTableSchema from the SpacetimeHttpClient: find the table by name,
index the typespace with its product_type_ref, and require the target to be
a Product; an absent table, an out-of-bounds reference or a non-Product
target throws (modelled as `Except.error` with the thrown message). -/
def getTableSchema (schema : SchemaDef) (tableName : String) :
    Except String (List TableSchemaColumn) :=
  match schema.tables.find? (fun t => t.name == tableName) with
  | none => .error ("Table " ++ tableName ++ " not found")
  | some table =>
      match schema.typespace.get? table.product_type_ref with
      | some (.product elements) => .ok (elements.map tableSchemaColumnOf)
      | _ => .error ("Could not find product type for table " ++ tableName)

/-- getTables from the SpacetimeHttpClient: the table names of the schema
document, or the empty list when fetching the schema failed (the source
catches the error and returns `[]`). -/
def getTables (schemaResult : Except String SchemaDef) : List String :=
  match schemaResult with
  | .ok schema => schema.tables.map RawTable.name
  | .error _ => []

end HttpClient

/-- ColumnMetadata as built by SchemaDiscovery.discoverColumns. -/
structure ColumnMetadata where
  name : String
  dataType : String
  nullable : Bool
  isPrimary : Bool
  isUnique : Bool
deriving DecidableEq, Repr

/-- TableMetadata as built by SchemaDiscovery.discoverTable (indexes and
constraints are always empty in the source and are omitted). -/
structure TableMetadata where
  name : String
  schema : String
  columns : List ColumnMetadata
  estimatedRows : Nat
deriving DecidableEq, Repr

/-- The SchemaCache entry written by getAllTables:
`{tables, cached: true, cachedAt, ttl}`. Instants and durations are integer
milliseconds (`Date.getTime()`). -/
structure SchemaCache where
  tables : List TableMetadata
  cached : Bool
  cachedAt : Int
  ttl : Int
deriving DecidableEq, Repr

/-- SchemaDiscovery.isCacheValid: no entry is invalid, an entry is valid
iff its age `now - cachedAt` is strictly below its ttl. -/
def isCacheValid : Option SchemaCache → Int → Bool
  | none, _ => false
  | some c, now => decide (now - c.cachedAt < c.ttl)

/-- SchemaDiscovery.clearCache: the entry becomes absent. -/
def clearCache (_cache : Option SchemaCache) : Option SchemaCache := none

/-- The record returned by SchemaDiscovery.getCacheStatus. -/
structure CacheStatus where
  cached : Bool
  age : Option Int
  ttl : Option Int
deriving DecidableEq, Repr

/-- SchemaDiscovery.getCacheStatus: `{cached: false}` without an entry,
otherwise `{cached: isCacheValid(), age, ttl}`. -/
def getCacheStatus : Option SchemaCache → Int → CacheStatus
  | none, _ => { cached := false, age := none, ttl := none }
  | some c, now =>
      { cached := isCacheValid (some c) now,
        age := some (now - c.cachedAt),
        ttl := some c.ttl }

/-- The discovery loop of getAllTables: each table name is discovered via
the injected collaborator; a per-table failure is caught, logged and the
table skipped. -/
def discoverTables (tableNames : List String)
    (discover : String → Except String TableMetadata) : List TableMetadata :=
  tableNames.filterMap (fun n => (discover n).toOption)

/-- SchemaDiscovery.getAllTables as explicit state passing: with a valid
entry and no forceRefresh the cached tables are returned unchanged;
otherwise the names (already produced by getTables, which maps a fetch
failure to the empty list) are discovered one by one and the cache entry is
replaced wholesale by a fresh one stamped at the current instant. Returns
the table list and the new cache state. -/
def getAllTables (cache : Option SchemaCache) (forceRefresh : Bool)
    (tableNames : List String) (discover : String → Except String TableMetadata)
    (now ttl : Int) : List TableMetadata × Option SchemaCache :=
  if !forceRefresh && isCacheValid cache now then
    ((cache.map SchemaCache.tables).getD [], cache)
  else
    let tables := discoverTables tableNames discover
    (tables, some { tables := tables, cached := true, cachedAt := now, ttl := ttl })

/-- The verbatim lowercase tag the spec expects for each primitive kind.
Modelled from the spec: the comparison target for the primitive-mapping
claim, written from the spec's words, not from the source. -/
def primLowerName : PrimKind → String
  | .U8 => "u8"
  | .U16 => "u16"
  | .U32 => "u32"
  | .U64 => "u64"
  | .U128 => "u128"
  | .U256 => "u256"
  | .I8 => "i8"
  | .I16 => "i16"
  | .I32 => "i32"
  | .I64 => "i64"
  | .I128 => "i128"
  | .I256 => "i256"
  | .F32 => "f32"
  | .F64 => "f64"
  | .Bool => "bool"
  | .String => "string"

/-- Elementwise decoding is List.map of the value decoder. -/
theorem parseSatsJsonList_eq_map (l : List WireValue) :
    parseSatsJsonList l = l.map parseSatsJsonValue := by
  induction l with
  | nil => rfl
  | cons v rest ih => simp [parseSatsJsonList, ih]

/-- A JavaScript property assignment grows the object by at most one
property. -/
theorem objAssign_length_le (o : List (String × WireValue)) (k : String) (v : WireValue) :
    (objAssign o k v).length ≤ o.length + 1 := by
  unfold objAssign
  split
  · simp
  · simp

/-- Once the positional index passes the column list, the forEach body
assigns nothing more. -/
theorem parseRowToObject_go_oob (columns : List Column) :
    ∀ (values : List WireValue) (index : Nat) (o : List (String × WireValue)),
      columns.length ≤ index →
      SqlRoute.parseRowToObject.go columns index values o = o := by
  intro values
  induction values with
  | nil => intro index o _; rfl
  | cons v rest ih =>
      intro index o h
      have hnone : columns.get? index = none := List.get?_eq_none.mpr h
      unfold SqlRoute.parseRowToObject.go
      rw [hnone]
      exact ih (index + 1) o (Nat.le_succ_of_le h)

/-- Raw values beyond the column count never reach the object: the forEach
result only depends on the prefix of the row that is covered by columns. -/
theorem parseRowToObject_go_take (columns : List Column) :
    ∀ (values : List WireValue) (index : Nat) (o : List (String × WireValue)),
      SqlRoute.parseRowToObject.go columns index values o
        = SqlRoute.parseRowToObject.go columns index
            (values.take (columns.length - index)) o := by
  intro values
  induction values with
  | nil => intro index o; simp
  | cons v rest ih =>
      intro index o
      rcases Nat.lt_or_ge index columns.length with hlt | hge
      · have h1 : columns.length - index = (columns.length - (index + 1)) + 1 := by omega
        rw [h1, List.take_succ_cons]
        cases hc : columns.get? index with
        | none =>
            have := List.get?_eq_none.mp hc
            omega
        | some c =>
            unfold SqlRoute.parseRowToObject.go
            rw [hc]
            exact ih (index + 1) _
      · have h0 : columns.length - index = 0 := by omega
        rw [h0, List.take_zero]
        have hnone : columns.get? index = none := List.get?_eq_none.mpr hge
        unfold SqlRoute.parseRowToObject.go
        rw [hnone]
        exact parseRowToObject_go_oob columns rest (index + 1) o (Nat.le_succ_of_le hge)

/-- The forEach adds at most one property per raw value. -/
theorem parseRowToObject_go_length (columns : List Column) :
    ∀ (values : List WireValue) (index : Nat) (o : List (String × WireValue)),
      (SqlRoute.parseRowToObject.go columns index values o).length
        ≤ o.length + values.length := by
  intro values
  induction values with
  | nil => intro index o; simp [SqlRoute.parseRowToObject.go]
  | cons v rest ih =>
      intro index o
      cases hc : columns.get? index with
      | some c =>
          unfold SqlRoute.parseRowToObject.go
          rw [hc]
          have h1 := ih (index + 1) (objAssign o c.name (parseSatsJsonValue v))
          have h2 := objAssign_length_le o c.name (parseSatsJsonValue v)
          simp only [List.length_cons]
          omega
      | none =>
          unfold SqlRoute.parseRowToObject.go
          rw [hc]
          have h1 := ih (index + 1) o
          simp only [List.length_cons]
          omega

/-- C1 (corrected): parseRowToObject never fails on a row/column length
mismatch. Raw values beyond the column list are silently ignored — the
result equals that of the row truncated to the column count — and a row
shorter than the column list just leaves the missing columns absent, never
padded: the object carries at most min(row length, column count)
properties. -/
theorem C1_row_shape_silent_truncation (columns : List Column) (values : List WireValue) :
    SqlRoute.parseRowToObject (.arr values) columns
      = SqlRoute.parseRowToObject (.arr (values.take columns.length)) columns ∧
    (SqlRoute.parseRowToObject (.arr values) columns).length
      ≤ min values.length columns.length := by
  constructor
  · have h := parseRowToObject_go_take columns values 0 []
    simpa [SqlRoute.parseRowToObject] using h
  · have h1 := parseRowToObject_go_take columns values 0 []
    have h2 := parseRowToObject_go_length columns (values.take (columns.length - 0)) 0 []
    simp only [Nat.sub_zero] at h1 h2
    simp only [SqlRoute.parseRowToObject]
    rw [h1]
    refine le_trans h2 ?_
    simp [List.length_take]

/-- C1 counterexample: a two-value row decoded against a one-column list
does not fail with any row-shape error; it succeeds and silently drops the
second value. -/
theorem C1_counterexample :
    SqlRoute.parseRowToObject (.arr [.num 1, .num 2]) [{ name := "a", type := "u8" }]
      = [("a", WireValue.num 1)] := rfl

/-- C5 (confirmed): a one-element array whose sole element is a primitive
string, number or boolean is unwrapped to that primitive; every other
array — empty, longer than one, or wrapping a non-primitive — is returned
as the ordered sequence of its elements, each decoded recursively. -/
theorem C5_array_decoding :
    (∀ v : WireValue, isPrimitiveWire v = true →
        parseSatsJsonValue (.arr [v]) = v) ∧
    (∀ v : WireValue, isPrimitiveWire v = false →
        parseSatsJsonValue (.arr [v]) = .arr [parseSatsJsonValue v]) ∧
    (∀ elems : List WireValue, elems.length ≠ 1 →
        parseSatsJsonValue (.arr elems) = .arr (elems.map parseSatsJsonValue)) := by
  refine ⟨fun v h => ?_, fun v h => ?_, fun elems h => ?_⟩
  · simp [parseSatsJsonValue, h]
  · simp [parseSatsJsonValue, h]
  · match elems with
    | [] => rfl
    | [e] => exact absurd rfl h
    | a :: b :: rest =>
        simp [parseSatsJsonValue, parseSatsJsonList_eq_map]

/-- Witness for C5: decoding [42] yields 42, not [42]; decoding [1,2,3]
yields [1,2,3] unchanged. -/
theorem C5_witness :
    parseSatsJsonValue (.arr [.num 42]) = .num 42 ∧
    parseSatsJsonValue (.arr [.num 1, .num 2, .num 3])
      = .arr [.num 1, .num 2, .num 3] := by
  constructor
  · exact C5_array_decoding.1 (.num 42) rfl
  · have h := C5_array_decoding.2.2 [.num 1, .num 2, .num 3] (by decide)
    simpa [parseSatsJsonValue] using h

/-- C6 (confirmed): primitive wire values pass through the decoder
verbatim, the decoder is idempotent on scalars, and null as well as an
absent (undefined) value decode to null. -/
theorem C6_scalar_passthrough :
    (∀ v : WireValue, isPrimitiveWire v = true →
        parseSatsJsonValue v = v ∧
        parseSatsJsonValue (parseSatsJsonValue v) = parseSatsJsonValue v) ∧
    parseSatsJsonValue .null = .null ∧
    parseSatsJsonValue .undef = .null := by
  refine ⟨fun v h => ?_, rfl, rfl⟩
  match v with
  | .str s => exact ⟨rfl, rfl⟩
  | .num n => exact ⟨rfl, rfl⟩
  | .bool b => exact ⟨rfl, rfl⟩
  | .null => simp [isPrimitiveWire] at h
  | .undef => simp [isPrimitiveWire] at h
  | .arr l => simp [isPrimitiveWire] at h
  | .obj l => simp [isPrimitiveWire] at h

/-- Witness for C6: the string scalar passes through verbatim and the
number scalar decodes idempotently. -/
theorem C6_witness :
    parseSatsJsonValue (WireValue.str "x") = WireValue.str "x" ∧
    parseSatsJsonValue (parseSatsJsonValue (WireValue.num 7))
      = parseSatsJsonValue (WireValue.num 7) :=
  ⟨(C6_scalar_passthrough.1 (.str "x") rfl).1,
   (C6_scalar_passthrough.1 (.num 7) rfl).2⟩

/-- C2 (corrected): formatAlgebraicType renders Ref(i) as the literal
string ref(i) without consulting the typespace at all — in bounds or out of
bounds, and never failing (the SQL route's copy renders every Ref as
complex); only getTableSchema resolves a table's product_type_ref one
level into the typespace, and it fails with a thrown error, not a default
tag, when that index is out of bounds. -/
theorem C2_ref_rendering :
    (∀ i : Nat, HttpClient.formatAlgebraicType (AlgebraicType.ref i)
        = "ref(" ++ toString i ++ ")") ∧
    (∀ i : Nat, SqlRoute.formatAlgebraicType (AlgebraicType.ref i) = "complex") ∧
    (∀ (schema : HttpClient.SchemaDef) (tableName : String) (table : HttpClient.RawTable),
        schema.tables.find? (fun t => t.name == tableName) = some table →
        schema.typespace.length ≤ table.product_type_ref →
        HttpClient.getTableSchema schema tableName
          = Except.error ("Could not find product type for table " ++ tableName)) := by
  refine ⟨fun i => rfl, fun i => rfl, fun schema tableName table hfind hlen => ?_⟩
  unfold HttpClient.getTableSchema
  rw [hfind]
  have hnone : schema.typespace[table.product_type_ref]? = none := by
    rw [← List.get?_eq_getElem?]
    exact List.get?_eq_none.mpr hlen
  simp [hnone]

/-- Witness for C2: a table whose product_type_ref points past the end of
a one-type typespace makes getTableSchema fail with the thrown message. -/
theorem C2_witness :
    HttpClient.getTableSchema
        { tables := [{ name := "players", product_type_ref := 7 }],
          typespace := [AlgebraicType.prim PrimKind.U8] } "players"
      = Except.error "Could not find product type for table players" :=
  C2_ref_rendering.2.2
    { tables := [{ name := "players", product_type_ref := 7 }],
      typespace := [AlgebraicType.prim PrimKind.U8] }
    "players" { name := "players", product_type_ref := 7 } rfl (by decide)

/-- C2 counterexample: with the typespace [Primitive U8] the index 0 is in
bounds, yet resolving Ref(0) yields the literal tag ref(0) — not the tag
u8 that resolving the referenced descriptor yields — and no error is
raised. -/
theorem C2_counterexample :
    HttpClient.formatAlgebraicType (AlgebraicType.ref 0) = "ref(0)" ∧
    HttpClient.formatAlgebraicType
        ([AlgebraicType.prim PrimKind.U8].getD 0 (AlgebraicType.prim PrimKind.U8)) = "u8" ∧
    ("ref(0)" : String) ≠ "u8" :=
  ⟨rfl, rfl, by decide⟩

/-- C3 (corrected): every primitive kind except I256 maps verbatim to its
lowercase name in the HTTP client's formatAlgebraicType, and every kind
except I256 and U256 does in the SQL route's copy; the missing kinds fall
through every branch to the silent complex fallback, so the mapping is not
total over the closed primitive set and nothing fails fast. -/
theorem C3_primitive_mapping :
    (∀ k : PrimKind, k ≠ PrimKind.I256 →
        HttpClient.formatAlgebraicType (AlgebraicType.prim k) = primLowerName k) ∧
    HttpClient.formatAlgebraicType (AlgebraicType.prim PrimKind.I256) = "complex" ∧
    (∀ k : PrimKind, k ≠ PrimKind.I256 → k ≠ PrimKind.U256 →
        SqlRoute.formatAlgebraicType (AlgebraicType.prim k) = primLowerName k) ∧
    SqlRoute.formatAlgebraicType (AlgebraicType.prim PrimKind.U256) = "complex" ∧
    SqlRoute.formatAlgebraicType (AlgebraicType.prim PrimKind.I256) = "complex" := by
  refine ⟨fun k h => ?_, rfl, fun k h1 h2 => ?_, rfl, rfl⟩
  · cases k <;> first | rfl | exact absurd rfl h
  · cases k <;> first | rfl | exact absurd rfl h1 | exact absurd rfl h2

/-- Witness for C3: U8 resolves to u8 in the client's formatter and F64 to
f64 in the route's copy. -/
theorem C3_witness :
    HttpClient.formatAlgebraicType (AlgebraicType.prim PrimKind.U8) = "u8" ∧
    SqlRoute.formatAlgebraicType (AlgebraicType.prim PrimKind.F64) = "f64" :=
  ⟨C3_primitive_mapping.1 PrimKind.U8 (by decide),
   C3_primitive_mapping.2.2.1 PrimKind.F64 (by decide) (by decide)⟩

/-- C3 counterexample: the primitive kind I256 of the closed set lacks a
mapping in both formatters; it silently resolves to the fallback tag
complex rather than to i256 or to a failure. -/
theorem C3_counterexample :
    HttpClient.formatAlgebraicType (AlgebraicType.prim PrimKind.I256) = "complex" ∧
    SqlRoute.formatAlgebraicType (AlgebraicType.prim PrimKind.I256) = "complex" ∧
    primLowerName PrimKind.I256 = "i256" ∧
    ("complex" : String) ≠ "i256" :=
  ⟨rfl, rfl, rfl, by decide⟩

/-- C4 (corrected): in the HTTP client's formatAlgebraicType a Product
with exactly one element whose field name is the timestamp, identity or
duration sentinel resolves to Timestamp, Identity or Duration, a
one-element Product with any other (or no) field name resolves to struct,
and a Product with a different element count resolves to struct; but the
SQL route's copy returns struct for every Product, sentinel elements
included. -/
theorem C4_sentinel_products :
    (∀ t : AlgebraicType, HttpClient.formatAlgebraicType
        (.product [(NameField.engaged "__timestamp_micros_since_unix_epoch__", t)])
          = "Timestamp") ∧
    (∀ t : AlgebraicType, HttpClient.formatAlgebraicType
        (.product [(NameField.engaged "__identity__", t)]) = "Identity") ∧
    (∀ t : AlgebraicType, HttpClient.formatAlgebraicType
        (.product [(NameField.engaged "__time_duration_micros__", t)]) = "Duration") ∧
    (∀ (s : String) (t : AlgebraicType),
        s ≠ "__timestamp_micros_since_unix_epoch__" → s ≠ "__identity__" →
        s ≠ "__time_duration_micros__" →
        HttpClient.formatAlgebraicType (.product [(NameField.engaged s, t)]) = "struct") ∧
    (∀ t : AlgebraicType,
        HttpClient.formatAlgebraicType (.product [(NameField.disengaged, t)]) = "struct") ∧
    (∀ elements : List (NameField × AlgebraicType), elements.length ≠ 1 →
        HttpClient.formatAlgebraicType (.product elements) = "struct") ∧
    (∀ elements : List (NameField × AlgebraicType),
        SqlRoute.formatAlgebraicType (.product elements) = "struct") := by
  refine ⟨fun t => rfl, fun t => rfl, fun t => rfl,
    fun s t h1 h2 h3 => ?_, fun t => rfl, fun elements h => ?_, fun elements => rfl⟩
  · simp [HttpClient.formatAlgebraicType, h1, h2, h3]
  · match elements with
    | [] => rfl
    | [e] => exact absurd rfl h
    | a :: b :: rest => rfl

/-- Witness for C4: the timestamp sentinel product resolves to Timestamp,
renaming its field yields struct, and the empty product yields struct. -/
theorem C4_witness :
    HttpClient.formatAlgebraicType
        (.product [(NameField.engaged "__timestamp_micros_since_unix_epoch__",
                    AlgebraicType.prim PrimKind.I64)]) = "Timestamp" ∧
    HttpClient.formatAlgebraicType
        (.product [(NameField.engaged "joined", AlgebraicType.prim PrimKind.I64)])
      = "struct" ∧
    HttpClient.formatAlgebraicType (.product []) = "struct" :=
  ⟨C4_sentinel_products.1 (AlgebraicType.prim PrimKind.I64),
   C4_sentinel_products.2.2.2.1 "joined" (AlgebraicType.prim PrimKind.I64)
     (by decide) (by decide) (by decide),
   C4_sentinel_products.2.2.2.2.2.1 [] (by decide)⟩

/-- C4 counterexample: the SQL route's formatAlgebraicType resolves the
one-element Product named with the timestamp sentinel to struct, not to
Timestamp. -/
theorem C4_counterexample :
    SqlRoute.formatAlgebraicType
        (.product [(NameField.engaged "__timestamp_micros_since_unix_epoch__",
                    AlgebraicType.prim PrimKind.I64)]) = "struct" ∧
    ("struct" : String) ≠ "Timestamp" :=
  ⟨rfl, by decide⟩

/-- C7 (confirmed): a cache entry is valid iff now - cachedAt < ttl;
immediately after a forced getAllTables the status reads cached (for a
positive ttl); once more than the ttl has elapsed with no further refresh
it reads not cached; and after clearCache it reads not cached
unconditionally. -/
theorem C7_cache_lifecycle :
    (∀ (c : SchemaCache) (now : Int),
        isCacheValid (some c) now = true ↔ now - c.cachedAt < c.ttl) ∧
    (∀ (cache : Option SchemaCache) (tableNames : List String)
        (discover : String → Except String TableMetadata) (now ttl : Int),
        0 < ttl →
        (getCacheStatus (getAllTables cache true tableNames discover now ttl).2 now).cached
          = true) ∧
    (∀ (cache : Option SchemaCache) (tableNames : List String)
        (discover : String → Except String TableMetadata) (now later ttl : Int),
        ttl < later - now →
        (getCacheStatus (getAllTables cache true tableNames discover now ttl).2 later).cached
          = false) ∧
    (∀ (cache : Option SchemaCache) (now : Int),
        (getCacheStatus (clearCache cache) now).cached = false) := by
  refine ⟨fun c now => ?_, fun cache tns d now ttl h => ?_,
    fun cache tns d now later ttl h => ?_, fun cache now => rfl⟩
  · simp [isCacheValid]
  · simp [getAllTables, getCacheStatus, isCacheValid]
    omega
  · simp [getAllTables, getCacheStatus, isCacheValid]
    omega

/-- Witness for C7: with a ten-minute ttl (in milliseconds) a forced
refresh at instant 0 reads cached at instant 0 and not cached at instant
700000. -/
theorem C7_witness :
    (getCacheStatus
        (getAllTables none true []
          (fun n => Except.ok { name := n, schema := "public", columns := [], estimatedRows := 0 })
          0 600000).2 0).cached = true ∧
    (getCacheStatus
        (getAllTables none true []
          (fun n => Except.ok { name := n, schema := "public", columns := [], estimatedRows := 0 })
          0 600000).2 700000).cached = false :=
  ⟨C7_cache_lifecycle.2.1 none []
      (fun n => Except.ok { name := n, schema := "public", columns := [], estimatedRows := 0 })
      0 600000 (by decide),
   C7_cache_lifecycle.2.2.1 none []
      (fun n => Except.ok { name := n, schema := "public", columns := [], estimatedRows := 0 })
      0 700000 600000 (by decide)⟩

/-- C8 (corrected): getAllTables never observes a failed discovery as an
error, but it does not preserve the previous entry either: getTables maps
a schema-fetch failure to an empty name list, a refresh then replaces any
previous cache entry wholesale with a fresh entry stamped at the refresh
instant (empty on total failure), and an individually failing table is
skipped while the remaining tables proceed. -/
theorem C8_no_error_state :
    (∀ e : String, HttpClient.getTables (Except.error e) = []) ∧
    (∀ (cache : Option SchemaCache)
        (discover : String → Except String TableMetadata) (now ttl : Int) (e : String),
        getAllTables cache true (HttpClient.getTables (Except.error e)) discover now ttl
          = ([], some { tables := [], cached := true, cachedAt := now, ttl := ttl })) ∧
    (∀ (cache : Option SchemaCache) (tableNames : List String)
        (discover : String → Except String TableMetadata) (now ttl : Int),
        (getAllTables cache true tableNames discover now ttl).2
          = some { tables := discoverTables tableNames discover, cached := true,
                   cachedAt := now, ttl := ttl }) ∧
    (∀ (n : String) (ns : List String)
        (discover : String → Except String TableMetadata) (e : String),
        discover n = Except.error e →
        discoverTables (n :: ns) discover = discoverTables ns discover) := by
  refine ⟨fun e => rfl, fun cache d now ttl e => ?_, fun cache tns d now ttl => ?_,
    fun n ns d e h => ?_⟩
  · simp [getAllTables, HttpClient.getTables, discoverTables]
  · simp [getAllTables]
  · simp [discoverTables, List.filterMap_cons, h, Except.toOption]

/-- Witness for C8: a table whose discovery fails is skipped while the
following table still gets discovered. -/
theorem C8_witness :
    discoverTables ["bad", "good"]
        (fun n => if n == "bad" then Except.error "boom"
          else Except.ok { name := n, schema := "public", columns := [], estimatedRows := 0 })
      = discoverTables ["good"]
        (fun n => if n == "bad" then Except.error "boom"
          else Except.ok { name := n, schema := "public", columns := [], estimatedRows := 0 }) :=
  C8_no_error_state.2.2.2 "bad" ["good"]
    (fun n => if n == "bad" then Except.error "boom"
      else Except.ok { name := n, schema := "public", columns := [], estimatedRows := 0 })
    "boom" rfl

/-- C8 counterexample: with an expired one-table cache entry and a failing
schema fetch, getAllTables replaces the previous entry with a fresh empty
one instead of leaving it untouched. -/
theorem C8_counterexample :
    (getAllTables
        (some { tables := [{ name := "players", schema := "public", columns := [],
                             estimatedRows := 0 }],
                cached := true, cachedAt := 0, ttl := 5 })
        false
        (HttpClient.getTables (Except.error "schema fetch failed"))
        (fun n => Except.ok { name := n, schema := "public", columns := [], estimatedRows := 0 })
        10 5).2
      = some { tables := [], cached := true, cachedAt := 10, ttl := 5 } ∧
    (some { tables := [], cached := true, cachedAt := 10, ttl := 5 } : Option SchemaCache)
      ≠ some { tables := [{ name := "players", schema := "public", columns := [],
                            estimatedRows := 0 }],
               cached := true, cachedAt := 0, ttl := 5 } :=
  ⟨rfl, by decide⟩

/-- The columns produced by the schema-to-column map, read positionally:
the column at position k of the suffix started at index carries the
positional index start + k. -/
theorem parseSchemaToColumns_go_get (elements : List SchemaElement) :
    ∀ (start k : Nat),
      (SqlRoute.parseSchemaToColumns.go start elements).get? k
        = (elements.get? k).map
            (fun e => SqlRoute.parseSchemaToColumns.column (start + k) e) := by
  induction elements with
  | nil => intro start k; simp [SqlRoute.parseSchemaToColumns.go]
  | cons e rest ih =>
      intro start k
      cases k with
      | zero => simp [SqlRoute.parseSchemaToColumns.go]
      | succ k =>
          simp only [SqlRoute.parseSchemaToColumns.go, List.get?_cons_succ]
          rw [show start + (k + 1) = (start + 1) + k from by omega]
          exact ih (start + 1) k

/-- C9 (corrected): in the SQL route's parseSchemaToColumns a disengaged
name at position index yields the synthesized, 0-based, deterministic name
col_index and an engaged non-empty name yields that string (an engaged
empty string is JavaScript-falsy and also yields col_index); but in
getTableSchema a disengaged or empty name yields the name unknown, not
col_index, and only an engaged non-empty name yields that string. -/
theorem C9_column_naming :
    (∀ (elements : List SchemaElement) (index : Nat) (element : SchemaElement),
        elements.get? index = some element → element.name = NameField.disengaged →
        (SqlRoute.parseSchemaToColumns (some elements)).get? index
          = some { name := "col_" ++ toString index,
                   type := SqlRoute.formatAlgebraicType element.algebraic_type }) ∧
    (∀ (elements : List SchemaElement) (index : Nat) (element : SchemaElement) (s : String),
        elements.get? index = some element → element.name = NameField.engaged s → s ≠ "" →
        (SqlRoute.parseSchemaToColumns (some elements)).get? index
          = some { name := s,
                   type := SqlRoute.formatAlgebraicType element.algebraic_type }) ∧
    (∀ (elements : List SchemaElement) (index : Nat) (element : SchemaElement),
        elements.get? index = some element → element.name = NameField.engaged "" →
        (SqlRoute.parseSchemaToColumns (some elements)).get? index
          = some { name := "col_" ++ toString index,
                   type := SqlRoute.formatAlgebraicType element.algebraic_type }) ∧
    (∀ t : AlgebraicType,
        (HttpClient.tableSchemaColumnOf (NameField.disengaged, t)).name = "unknown") ∧
    (∀ (s : String) (t : AlgebraicType), s ≠ "" →
        (HttpClient.tableSchemaColumnOf (NameField.engaged s, t)).name = s) := by
  refine ⟨fun elements index element hget hname => ?_,
    fun elements index element s hget hname hs => ?_,
    fun elements index element hget hname => ?_,
    fun t => rfl, fun s t hs => ?_⟩
  · have h := parseSchemaToColumns_go_get elements 0 index
    simp only [Nat.zero_add] at h
    simp only [SqlRoute.parseSchemaToColumns]
    rw [h, hget]
    simp [SqlRoute.parseSchemaToColumns.column, hname]
  · have h := parseSchemaToColumns_go_get elements 0 index
    simp only [Nat.zero_add] at h
    simp only [SqlRoute.parseSchemaToColumns]
    rw [h, hget]
    simp [SqlRoute.parseSchemaToColumns.column, hname, hs]
  · have h := parseSchemaToColumns_go_get elements 0 index
    simp only [Nat.zero_add] at h
    simp only [SqlRoute.parseSchemaToColumns]
    rw [h, hget]
    simp [SqlRoute.parseSchemaToColumns.column, hname]
  · simp [HttpClient.tableSchemaColumnOf, hs]

/-- Witness for C9: among three schema elements the disengaged one at
position 2 is named col_2 by the SQL route, while the client's
getTableSchema mapping names an engaged id column id. -/
theorem C9_witness :
    (SqlRoute.parseSchemaToColumns (some
        [{ name := NameField.engaged "id", algebraic_type := AlgebraicType.prim PrimKind.U32 },
         { name := NameField.engaged "b", algebraic_type := AlgebraicType.prim PrimKind.U8 },
         { name := NameField.disengaged, algebraic_type := AlgebraicType.prim PrimKind.U8 }])).get? 2
      = some { name := "col_2", type := "u8" } ∧
    (HttpClient.tableSchemaColumnOf
        (NameField.engaged "id", AlgebraicType.prim PrimKind.U32)).name = "id" :=
  ⟨C9_column_naming.1
      [{ name := NameField.engaged "id", algebraic_type := AlgebraicType.prim PrimKind.U32 },
       { name := NameField.engaged "b", algebraic_type := AlgebraicType.prim PrimKind.U8 },
       { name := NameField.disengaged, algebraic_type := AlgebraicType.prim PrimKind.U8 }]
      2 { name := NameField.disengaged, algebraic_type := AlgebraicType.prim PrimKind.U8 }
      rfl rfl,
   C9_column_naming.2.2.2.2 "id" (AlgebraicType.prim PrimKind.U32) (by decide)⟩

/-- C9 counterexample: getTableSchema names the disengaged column at
position 2 of 3 unknown, not col_2. -/
theorem C9_counterexample :
    (HttpClient.getTableSchema
        { tables := [{ name := "players", product_type_ref := 0 }],
          typespace := [AlgebraicType.product
            [(NameField.engaged "a", AlgebraicType.prim PrimKind.U8),
             (NameField.engaged "b", AlgebraicType.prim PrimKind.U8),
             (NameField.disengaged, AlgebraicType.prim PrimKind.U8)]] }
        "players").map (fun cols => cols.map HttpClient.TableSchemaColumn.name)
      = Except.ok ["a", "b", "unknown"] ∧
    ("unknown" : String) ≠ "col_2" :=
  ⟨rfl, by decide⟩

/-- C10 (confirmed): for a positive maxRows the response holds exactly the
first min(maxRows, totalRows) decoded rows in their original order,
fetchedRows is the number of returned rows, and truncated holds iff
totalRows exceeds maxRows; for a zero or negative maxRows all decoded rows
are returned and truncated is false; the omitted maxRows defaults to
10000. -/
theorem C10_row_limit (schema : Option (List SchemaElement)) (rawRows : List WireValue)
    (maxRows : Int) :
    (SqlRoute.postResponse schema rawRows maxRows).totalRows = rawRows.length ∧
    (0 < maxRows →
      (SqlRoute.postResponse schema rawRows maxRows).rows
        = (rawRows.map (fun row =>
            SqlRoute.parseRowToObject row (SqlRoute.parseSchemaToColumns schema))).take
              maxRows.toNat ∧
      (SqlRoute.postResponse schema rawRows maxRows).fetchedRows
        = min maxRows.toNat rawRows.length ∧
      ((SqlRoute.postResponse schema rawRows maxRows).truncated = true ↔
        ((rawRows.length : Int) > maxRows))) ∧
    (maxRows ≤ 0 →
      (SqlRoute.postResponse schema rawRows maxRows).rows
        = rawRows.map (fun row =>
            SqlRoute.parseRowToObject row (SqlRoute.parseSchemaToColumns schema)) ∧
      (SqlRoute.postResponse schema rawRows maxRows).truncated = false) ∧
    (SqlRoute.postResponse schema rawRows maxRows).fetchedRows
      = (SqlRoute.postResponse schema rawRows maxRows).rows.length ∧
    SqlRoute.effectiveMaxRows none = 10000 := by
  refine ⟨?_, fun hpos => ⟨?_, ?_, ?_⟩, fun hnonpos => ⟨?_, ?_⟩, ?_, rfl⟩
  · simp [SqlRoute.postResponse]
  · simp [SqlRoute.postResponse, hpos]
  · simp [SqlRoute.postResponse, hpos, List.length_take]
  · simp [SqlRoute.postResponse, hpos]
  · have h : ¬ maxRows > 0 := by omega
    simp [SqlRoute.postResponse, h]
  · have h : ¬ maxRows > 0 := by omega
    simp [SqlRoute.postResponse, h]
  · simp [SqlRoute.postResponse]

/-- Witness for C10: two decodable rows with maxRows 1 return exactly the
first decoded row and report truncation. -/
theorem C10_witness :
    (SqlRoute.postResponse none [WireValue.arr [], WireValue.arr []] 1).rows
      = ([WireValue.arr [], WireValue.arr []].map (fun row =>
          SqlRoute.parseRowToObject row (SqlRoute.parseSchemaToColumns none))).take
            (1 : Int).toNat ∧
    ((SqlRoute.postResponse none [WireValue.arr [], WireValue.arr []] 1).truncated = true ↔
      ((([WireValue.arr [], WireValue.arr []] : List WireValue).length : Int) > 1)) :=
  ⟨((C10_row_limit none [WireValue.arr [], WireValue.arr []] 1).2.1 (by decide)).1,
   ((C10_row_limit none [WireValue.arr [], WireValue.arr []] 1).2.1 (by decide)).2.2⟩

end Portal
